import Mathlib

/-!
# Verification of the zoom-sdk-be recording-transfer pipeline

Shallow embedding of the asynchronous recording-transfer pipeline of the
`zoom-sdk-be` repository:

* `src/config/s3.js` — destination-key derivation (`generateS3Key`) and bucket
  configuration;
* `src/services/s3StreamingService.js` — per-file streaming upload
  (`streamUploadToS3`, modelled through an outcome oracle for the external
  network/S3 effects) and the batch orchestrator (`batchStreamUpload`);
* `src/workers/recordingWorker.js` — the job processor: payload validation,
  the single batch call, reconciliation of successful uploads into the
  `ZoomMeeting` record, and the structured job result;
* `src/queues/recordingQueue.js` — queue configuration (attempts, exponential
  backoff, retention) and `getQueueStats`.

External effects (HTTP download, S3 PUT, Sequelize queries, awaited promises)
are passed in as explicit outcome values of type `Except String _`, so that
every JavaScript control path — including `try`/`catch` handling — is an
explicit, total Lean function of those outcomes.
-/

namespace ZoomSdkBe

/-! ## `src/config/s3.js` -/

/-- Embeds `bucketConfig.folderPrefix`: `process.env.S3_FOLDER_PREFIX ||
"recordings/"`.  The environment value is a parameter; `none` means the
variable is unset, in which case the default `"recordings/"` (note the
trailing slash) applies.  (Source name `folderPrefix`; shortened here.) -/
def folderPfx (envValue : Option String) : String :=
  envValue.getD "recordings/"

/-- A character kept as-is by the sanitization regex `[^a-zA-Z0-9.-]`:
ASCII letters, digits, `.` and `-`. -/
def keepChar (c : Char) : Bool :=
  c.isAlphanum || c = '.' || c = '-'

/-- Embeds `fileName.replace(/[^a-zA-Z0-9.-]/g, "_")` from `generateS3Key`:
every character outside `[A-Za-z0-9.-]` is replaced by `_` (the regex is a
single-character class, so the replacement is character-wise). -/
def sanitizeFileName (fileName : String) : String :=
  String.mk (fileName.data.map (fun c => if keepChar c then c else '_'))

/-- Embeds `generateS3Key` from `src/config/s3.js`.  The current day
(`new Date().toISOString().split("T")[0]`) is the explicit parameter `today`;
the folder-prefix configuration value is the parameter `pfx`.  The key is
`pfx ++ today ++ "/" ++ sessionId ++ "/" ++ fileType ++ "/" ++ sanitized`. -/
def generateS3Key (pfx today sessionId fileName fileType : String) : String :=
  pfx ++ today ++ "/" ++ sessionId ++ "/" ++ fileType ++ "/"
    ++ sanitizeFileName fileName

/-! ## `src/services/s3StreamingService.js` — content types -/

/-- Embeds the `contentTypes` object literal defined inside `getContentType`. -/
def contentTypes : List (String × String) :=
  [("mp4", "video/mp4"), ("mov", "video/quicktime"), ("avi", "video/x-msvideo"),
   ("mkv", "video/x-matroska"), ("wmv", "video/x-ms-wmv"), ("flv", "video/x-flv"),
   ("webm", "video/webm"), ("m4v", "video/x-m4v"), ("mp3", "audio/mpeg"),
   ("wav", "audio/wav"), ("aac", "audio/aac"), ("ogg", "audio/ogg"),
   ("m4a", "audio/mp4"), ("pdf", "application/pdf"), ("txt", "text/plain"),
   ("json", "application/json")]

/-- The last `.`-separated segment of a character list: `cur` accumulates
(reversed) the characters of the segment read since the most recent `.`. -/
def extSegment : List Char → List Char → List Char
  | [], cur => cur.reverse
  | c :: cs, cur => if c = '.' then extSegment cs [] else extSegment cs (c :: cur)

/-- Embeds `fileName.toLowerCase().split(".").pop()`: the segment after the
last `.` of the lower-cased name (the whole lower-cased name when it has no
`.`; `split` never yields an empty array, so `pop` always yields a string;
`toLowerCase` is character-wise ASCII case folding on these names). -/
def fileExtension (fileName : String) : String :=
  String.mk (extSegment (fileName.data.map Char.toLower) [])

/-- Faithful embedding of `getContentType` from
`src/services/s3StreamingService.js` (lines 127–148).  The body computes the
extension and constructs the `contentTypes` table, but its `return` statement
reads the *undefined* identifier `contentType` (singular) — not the local
`contentTypes` — so every call throws
`ReferenceError: contentType is not defined` before the `||` fallback can
evaluate.  The thrown error is modelled as `Except.error`. -/
def getContentType (fileName : String) : Except String String :=
  let _extension := fileExtension fileName
  let _table := contentTypes
  Except.error "contentType is not defined"

/-- Modelled from the spec: the content-type derivation as documented —
"derived from file extension via a fixed lookup table (video/audio/document
formats); unknown extensions map to a generic binary content type".  This is
what the `return contentTypes[extension] || "application/octet-stream"` line
was evidently meant to be; compared against `getContentType` above. -/
def getContentTypeSpec (fileName : String) : String :=
  (contentTypes.lookup (fileExtension fileName)).getD "application/octet-stream"

/-! ## `src/services/s3StreamingService.js` — batch upload -/

/-- One entry of `payload.object.recording_files` as consumed by the
pipeline. -/
structure RecordingFile where
  id : String
  recording_type : String
  file_name : Option String
  file_size : Option Nat
  download_url : String
  recording_start : Option String
  recording_end : Option String
  duration : Option Nat
deriving DecidableEq, Repr

/-- The fields of the object returned by a successful `streamUploadToS3`
call that the rest of the pipeline reads (`success: true` is implicit in
being on the `ok` side of the outcome). -/
structure UploadSuccess where
  s3Url : String
  s3Key : String
  fileSize : Option Nat
deriving DecidableEq, Repr

/-- One element of `successfulUploads`: the `streamUploadToS3` result spread
together with `originalFileId`, `recordingType` and timing metadata of the
originating file. -/
structure SuccessEntry where
  s3Url : String
  s3Key : String
  originalFileId : String
  recordingType : String
  fileSize : Option Nat
  duration : Option Nat
deriving DecidableEq, Repr

/-- One element of `failedUploads`: `{ fileId, error }`. -/
structure FailureEntry where
  fileId : String
  error : String
deriving DecidableEq, Repr

/-- The settled value of one mapped upload promise in `batchStreamUpload`:
the per-file `try`/`catch` returns either the success object or the
`{ success: false, originalFileId, error, recordingType }` object, so the
promise always fulfills. -/
inductive PerFile where
  | ok (entry : SuccessEntry)
  | fail (fileId : String) (error : String) (recordingType : String)
deriving DecidableEq, Repr

/-- The body of `files.map(async (file) => ...)` in `batchStreamUpload`:
call `streamUploadToS3` (its external outcome given by the oracle `upload`)
and either spread the result with the file's metadata or catch the thrown
error into a failure value. -/
def uploadOne (upload : RecordingFile → Except String UploadSuccess)
    (f : RecordingFile) : PerFile :=
  match upload f with
  | .ok s =>
      .ok { s3Url := s.s3Url, s3Key := s.s3Key, originalFileId := f.id,
            recordingType := f.recording_type, fileSize := s.fileSize,
            duration := f.duration }
  | .error e => .fail f.id e f.recording_type

/-- The aggregate returned by `batchStreamUpload` (`completedAt` is an
external timestamp, irrelevant to the claims, and omitted). -/
structure BatchResult where
  successfulUploads : List SuccessEntry
  failedUploads : List FailureEntry
  totalFiles : Nat
  sessionId : String
deriving DecidableEq, Repr

/-- The success side of the `results.forEach` partition. -/
def successPart : PerFile → Option SuccessEntry
  | .ok e => some e
  | .fail _ _ _ => none

/-- The failure side of the `results.forEach` partition: push
`{ fileId: files[index].id, error: value.error }` (the `rejected` branch is
dead since every mapped promise fulfills). -/
def failurePart : PerFile → Option FailureEntry
  | .ok _ => none
  | .fail fileId e _ => some { fileId := fileId, error := e }

/-- Embeds `batchStreamUpload` from `src/services/s3StreamingService.js`
(lines 151–209): map every file to its settled outcome, then partition into
`successfulUploads` and `failedUploads` in input order.  The external
per-file upload outcome is the oracle `upload`. -/
def batchStreamUpload (files : List RecordingFile) (sessionId : String)
    (upload : RecordingFile → Except String UploadSuccess) : BatchResult :=
  let results := files.map (uploadOne upload)
  { successfulUploads := results.filterMap successPart
    failedUploads := results.filterMap failurePart
    totalFiles := files.length
    sessionId := sessionId }

/-! ## `src/workers/recordingWorker.js` — job payload and result -/

/-- `payload.object` of the webhook. -/
structure PayloadObject where
  session_id : Option String
  session_name : Option String
  recording_files : Option (List RecordingFile)
deriving DecidableEq, Repr

/-- `payload` of the webhook. -/
structure Payload where
  account_id : Option String
  object : Option PayloadObject
deriving DecidableEq, Repr

/-- `job.data.webhookData` as destructured by the processor (`event_ts` is
read but unused). -/
structure WebhookData where
  event : String
  payload : Option Payload
  download_token : Option String
deriving DecidableEq, Repr

/-- JavaScript falsiness of an optional string: `undefined`/`null` (here
`none`) and the empty string are falsy; this is the `!sessionId` /
`!download_token` test. -/
def jsFalsy : Option String → Bool
  | none => true
  | some s => s.isEmpty

/-- A row of the `ZoomMeeting` model, as far as the processor reads it
(only its existence and identity matter; the mutation is recorded in
`DbTrace`). -/
structure Meeting where
  id : String
deriving DecidableEq, Repr

/-- The argument object of `meeting.update({ sessionRecorded: "completed",
recordingUrl: primaryVideo.s3Url })`. -/
structure MeetingUpdate where
  sessionRecorded : String
  recordingUrl : String
deriving DecidableEq, Repr

/-- Observable database effects of one processor run: whether
`ZoomMeeting.findOne` was invoked, and with which argument object
`meeting.update` was invoked (if it was reached at all). -/
structure DbTrace where
  findAttempted : Bool
  updateCalled : Option MeetingUpdate
deriving DecidableEq, Repr

/-- The trace of a run that never touches the database. -/
def noDbTrace : DbTrace :=
  { findAttempted := false, updateCalled := none }

/-- The structured value the processor returns to the queue.  Exactly one
constructor per `return` site of the processor:
* `errorResult` — the outer `catch` (`{ error: true, message, ... }`);
* `noFiles` — the empty-file-list early return (`filesProcessed: 0`);
* `uploadFailed` — the `catch (uploadError)` around the batch call
  (`filesProcessed: 0`, every file failed, `s3UploadStatus: "FAILED"`);
* `completed` — the normal final result object. -/
inductive JobResult where
  | errorResult (message : String)
  | noFiles (sessionId : String) (accountId : Option String)
  | uploadFailed (sessionId : String) (accountId : Option String)
      (filesProcessed failedFiles totalFiles : Nat)
      (failedUploads : List FailureEntry) (uploadError : String)
  | completed (sessionId : String) (accountId : Option String)
      (filesProcessed failedFiles totalFiles : Nat)
      (successfulUploads : List SuccessEntry)
      (failedUploads : List FailureEntry)
      (databaseUpdated : Bool)
deriving DecidableEq, Repr

/-- The `filesProcessed` field of the result object, when the result shape
has one (`errorResult` does not). -/
def JobResult.filesProcessedField : JobResult → Option Nat
  | .errorResult _ => none
  | .noFiles _ _ => some 0
  | .uploadFailed _ _ n _ _ _ _ => some n
  | .completed _ _ n _ _ _ _ _ => some n

/-- The `databaseUpdated` field of the result object; only the normal
`completed` result carries it. -/
def JobResult.databaseUpdatedField : JobResult → Option Bool
  | .completed _ _ _ _ _ _ _ b => some b
  | _ => none

/-- The `failedUploads` field of the result object, when present. -/
def JobResult.failedUploadsField : JobResult → Option (List FailureEntry)
  | .errorResult _ => none
  | .noFiles _ _ => none
  | .uploadFailed _ _ _ _ _ fs _ => some fs
  | .completed _ _ _ _ _ _ fs _ => some fs

/-- Whether the result is the outer-catch error result (`error: true`). -/
def JobResult.isError : JobResult → Bool
  | .errorResult _ => true
  | _ => false

/-! ## `src/workers/recordingWorker.js` — the processor -/

/-- The validation phase of the processor (lines 30–61 before the empty-file
check): the event-type check, extraction of `sessionId`, `files` and
`accountId` from the optional-chained payload, and the `!sessionId` /
`!download_token` guards.  Each `throw new Error(...)` lands in the outer
`catch`, so it is modelled as an `Except.error` carrying `error.message`. -/
def parseJob (wd : WebhookData) :
    Except String (String × Option String × List RecordingFile) :=
  if wd.event ≠ "session.recording_completed" then
    .error ("Unexpected event type: " ++ wd.event)
  else
    let obj := wd.payload.bind Payload.object
    let sessionId := obj.bind PayloadObject.session_id
    let files := (obj.bind PayloadObject.recording_files).getD []
    let accountId := wd.payload.bind Payload.account_id
    if jsFalsy sessionId then .error "Session ID is required"
    else if jsFalsy wd.download_token then .error "Download token is required"
    else .ok (sessionId.getD "", accountId, files)

/-- The primary-upload selection (lines 141–145):
`successfulUploads.find((file) => file.recordingType ===
"shared_screen_with_speaker_view") || successfulUploads[0]`. -/
def selectPrimary (uploads : List SuccessEntry) : Option SuccessEntry :=
  match uploads.find?
      (fun u => u.recordingType == "shared_screen_with_speaker_view") with
  | some u => some u
  | none => uploads.head?

/-- The database-reconciliation block (lines 126–170).  It is guarded by
`successfulUploads.length > 0`; inside, `ZoomMeeting.findOne` and
`meeting.update` run under a `catch (dbError)` that swallows every error, so
the block influences nothing but the database trace.  `findOutcome` is the
external outcome of `findOne` (`Except.error` = query threw, `ok none` =
no row); `updOutcome` is the external outcome of `meeting.update`, which is
unobservable because the `catch` discards it. -/
def dbPhase (ur : BatchResult) (findOutcome : Except String (Option Meeting))
    (_updOutcome : Except String Unit) : DbTrace :=
  if 0 < ur.successfulUploads.length then
    match findOutcome with
    | .error _ => { findAttempted := true, updateCalled := none }
    | .ok none => { findAttempted := true, updateCalled := none }
    | .ok (some _) =>
        match selectPrimary ur.successfulUploads with
        | some p =>
            { findAttempted := true
              updateCalled := some { sessionRecorded := "completed"
                                     recordingUrl := p.s3Url } }
        | none => { findAttempted := true, updateCalled := none }
  else noDbTrace

/-- Embeds the `recordingWorker` job processor
(`src/workers/recordingWorker.js`, lines 24–233) as a total function of the
webhook payload and of the outcomes of its three external awaits:
`batchOutcome` for the awaited `batchStreamUpload` promise, `findOutcome`
for `ZoomMeeting.findOne`, `updOutcome` for `meeting.update`.  It returns
the structured job result together with the database-effect trace; no path
throws past the processor, matching the outer `try`/`catch`. -/
def processJob (wd : WebhookData) (batchOutcome : Except String BatchResult)
    (findOutcome : Except String (Option Meeting))
    (updOutcome : Except String Unit) : JobResult × DbTrace :=
  match parseJob wd with
  | .error msg => (.errorResult msg, noDbTrace)
  | .ok (sessionId, accountId, files) =>
    if files.length = 0 then
      (.noFiles sessionId accountId, noDbTrace)
    else
      match batchOutcome with
      | .error e =>
          (.uploadFailed sessionId accountId 0 files.length files.length
            (files.map (fun f => { fileId := f.id, error := e })) e,
           noDbTrace)
      | .ok ur =>
          let trace := dbPhase ur findOutcome updOutcome
          (.completed sessionId accountId
            ur.successfulUploads.length ur.failedUploads.length ur.totalFiles
            ur.successfulUploads ur.failedUploads
            (decide (0 < ur.successfulUploads.length)),
           trace)

/-! ## `src/queues/recordingQueue.js` -/

/-- The `defaultJobOptions` shape of the BullMQ queue constructor (with the
backoff sub-object flattened). -/
structure JobOptions where
  attempts : Nat
  backoffType : String
  backoffDelay : Nat
  removeOnComplete : Nat
  removeOnFail : Nat
deriving DecidableEq, Repr

/-- The literal `defaultJobOptions` of `recordingQueue`
(`src/queues/recordingQueue.js`, lines 4–15). -/
def recordingQueueOptions : JobOptions :=
  { attempts := 3, backoffType := "exponential", backoffDelay := 2000
    removeOnComplete := 100, removeOnFail := 50 }

/-- Modelled from the spec: BullMQ's exponential backoff assigns the `k`-th
retry (`k = 0` first) the delay `backoffDelay * 2 ^ k` milliseconds — "delay
doubles per retry: 2s, 4s, 8s …" -/
def backoffDelayFor (opts : JobOptions) (k : Nat) : Nat :=
  opts.backoffDelay * 2 ^ k

/-- Modelled from the spec: BullMQ lifecycle for a job whose processing
function throws on every attempt — the job is attempted, and while the
attempts made are fewer than `opts.attempts` it is re-scheduled after the
exponential backoff delay; once they reach `opts.attempts` it is moved to
the failed set.  Returns the total number of attempts and the list of
delays slept between consecutive attempts.  `fuel` bounds the recursion and
is instantiated with `opts.attempts`. -/
def failingRunAux (opts : JobOptions) : Nat → Nat → Nat × List Nat
  | 0, made => (made, [])
  | fuel + 1, made =>
      let made' := made + 1
      if made' < opts.attempts then
        let (n, ds) := failingRunAux opts fuel made'
        (n, backoffDelayFor opts (made' - 1) :: ds)
      else (made', [])

/-- Total attempts and inter-attempt delays for an always-failing job under
the given options. -/
def failingRun (opts : JobOptions) : Nat × List Nat :=
  failingRunAux opts opts.attempts 0

/-- Modelled from the spec: with `removeOnFail` set to a positive count,
BullMQ retains the exhausted job in the failed set (keeping up to that many
failed jobs) instead of deleting it. -/
def retainedInFailedSet (opts : JobOptions) : Bool :=
  decide (0 < opts.removeOnFail)

/-- The `{waiting, active, completed, failed, total}` object of
`getQueueStats`. -/
structure QueueStats where
  waiting : Nat
  active : Nat
  completed : Nat
  failed : Nat
  total : Nat
deriving DecidableEq, Repr

/-- Embeds `getQueueStats` (`src/queues/recordingQueue.js`, lines 55–73):
the four awaited state reads (`getWaiting`, `getActive`, `getCompleted`,
`getFailed`) run sequentially inside a `try` whose `catch` returns `null`;
each read's external outcome is a parameter (a job list, or the thrown
error).  On success it returns the four lengths and their sum. -/
def getQueueStats (w a c f : Except String (List String)) :
    Option QueueStats :=
  match w with
  | .error _ => none
  | .ok ws =>
    match a with
    | .error _ => none
    | .ok as_ =>
      match c with
      | .error _ => none
      | .ok cs =>
        match f with
        | .error _ => none
        | .ok fs =>
            some { waiting := ws.length, active := as_.length
                   completed := cs.length, failed := fs.length
                   total := ws.length + as_.length + cs.length + fs.length }

/-! ## Sample data used by witnesses -/

/-- A sample recording file of the preferred composite type. -/
def fileA : RecordingFile :=
  { id := "f-a", recording_type := "shared_screen_with_speaker_view"
    file_name := some "a.mp4", file_size := some 1024
    download_url := "https://zoom.example/a", recording_start := none
    recording_end := none, duration := some 60 }

/-- A sample recording file of type `timeline`. -/
def fileB : RecordingFile :=
  { id := "f-b", recording_type := "timeline"
    file_name := some "b.json", file_size := some 64
    download_url := "https://zoom.example/b", recording_start := none
    recording_end := none, duration := some 60 }

/-- A sample outcome oracle: the upload of `fileA` succeeds, every other
upload throws a network-timeout error. -/
def sampleUpload (f : RecordingFile) : Except String UploadSuccess :=
  if f.id = "f-a" then
    .ok { s3Url := "https://bucket.s3/a", s3Key := "recordings/a", fileSize := some 1024 }
  else .error "Upload failed: network timeout"

/-- A well-formed webhook payload carrying the given file list. -/
def sampleWebhook (files : List RecordingFile) : WebhookData :=
  { event := "session.recording_completed"
    payload := some
      { account_id := some "acct-1"
        object := some
          { session_id := some "sess-1", session_name := some "meet-1"
            recording_files := some files } }
    download_token := some "tok-1" }

/-- A sample timeline-typed success entry. -/
def entryTimeline : SuccessEntry :=
  { s3Url := "https://bucket.s3/t", s3Key := "recordings/t"
    originalFileId := "f-b", recordingType := "timeline"
    fileSize := some 64, duration := some 60 }

/-- A sample success entry of the preferred composite type. -/
def entrySSV : SuccessEntry :=
  { s3Url := "https://bucket.s3/a", s3Key := "recordings/a"
    originalFileId := "f-a"
    recordingType := "shared_screen_with_speaker_view"
    fileSize := some 1024, duration := some 60 }

/-! ## Orchestrator aggregation (C1) -/

/-- Every settled per-file value lands in exactly one side of the
partition, so the two `filterMap`s split the list without loss. -/
theorem perFile_partition_length (l : List PerFile) :
    (l.filterMap successPart).length + (l.filterMap failurePart).length
      = l.length := by
  induction l with
  | nil => rfl
  | cons hd tl ih =>
      cases hd <;>
        simp only [List.filterMap_cons, successPart, failurePart,
          List.length_cons] <;> omega

/-- C1: for every input file list, session id and per-file upload outcome,
`batchStreamUpload` returns an aggregate whose success count plus failure
count equals the number of input files (with `totalFiles` also equal to it),
and every failure entry carries the id of an originating input file together
with that file's thrown error message.  Being a total function of the
outcomes, it never raises. -/
theorem batchStreamUpload_partition (files : List RecordingFile)
    (sessionId : String)
    (upload : RecordingFile → Except String UploadSuccess) :
    (batchStreamUpload files sessionId upload).successfulUploads.length
        + (batchStreamUpload files sessionId upload).failedUploads.length
      = files.length
    ∧ (batchStreamUpload files sessionId upload).totalFiles = files.length
    ∧ ∀ fe ∈ (batchStreamUpload files sessionId upload).failedUploads,
        ∃ f ∈ files, fe.fileId = f.id ∧ upload f = .error fe.error := by
  refine ⟨?_, rfl, ?_⟩
  · simpa [batchStreamUpload] using
      perFile_partition_length (files.map (uploadOne upload))
  · intro fe hfe
    simp only [batchStreamUpload, List.mem_filterMap, List.mem_map] at hfe
    obtain ⟨pf, ⟨f, hf, hmap⟩, hpart⟩ := hfe
    refine ⟨f, hf, ?_⟩
    subst hmap
    unfold uploadOne at hpart
    cases hup : upload f with
    | ok s => simp [hup, failurePart] at hpart
    | error e =>
        simp only [hup, failurePart] at hpart
        cases hpart
        exact ⟨rfl, rfl⟩

/-- Witness for C1 at a concrete two-file batch in which one file succeeds
and one fails. -/
theorem batchStreamUpload_partition_witness :
    (batchStreamUpload [fileA, fileB] "sess-1" sampleUpload).successfulUploads.length
        + (batchStreamUpload [fileA, fileB] "sess-1" sampleUpload).failedUploads.length
      = 2
    ∧ ∀ fe ∈ (batchStreamUpload [fileA, fileB] "sess-1" sampleUpload).failedUploads,
        ∃ f ∈ [fileA, fileB], fe.fileId = f.id ∧ sampleUpload f = .error fe.error :=
  ⟨(batchStreamUpload_partition [fileA, fileB] "sess-1" sampleUpload).1,
   (batchStreamUpload_partition [fileA, fileB] "sess-1" sampleUpload).2.2⟩

/-! ## Primary-upload selection (C5) -/

/-- C5: whenever the successful uploads contain an entry of recording type
`shared_screen_with_speaker_view`, `selectPrimary` selects such an entry
(a member of the list), at whatever position it sits; when no entry has that
type, it selects the first successful upload (`successfulUploads[0]`). -/
theorem selectPrimary_spec (uploads : List SuccessEntry) :
    ((∃ u ∈ uploads, u.recordingType = "shared_screen_with_speaker_view") →
      ∃ p ∈ uploads, selectPrimary uploads = some p
        ∧ p.recordingType = "shared_screen_with_speaker_view")
    ∧ ((∀ u ∈ uploads, u.recordingType ≠ "shared_screen_with_speaker_view") →
      selectPrimary uploads = uploads.head?) := by
  unfold selectPrimary
  cases hfind : uploads.find?
      (fun u => u.recordingType == "shared_screen_with_speaker_view") with
  | some u =>
      have hmem : u ∈ uploads := List.mem_of_find?_eq_some hfind
      have hty : u.recordingType = "shared_screen_with_speaker_view" := by
        have := List.find?_some hfind
        simpa using this
      exact ⟨fun _ => ⟨u, hmem, rfl, hty⟩,
        fun hall => absurd hty (hall u hmem)⟩
  | none =>
      have hnone := List.find?_eq_none.mp hfind
      refine ⟨?_, fun _ => rfl⟩
      rintro ⟨u, hu, hty⟩
      exact absurd hty (by simpa using hnone u hu)

/-- Witness for C5 on the spec's own example
`["timeline", "shared_screen_with_speaker_view"]`. -/
theorem selectPrimary_spec_witness :
    ∃ p ∈ [entryTimeline, entrySSV],
      selectPrimary [entryTimeline, entrySSV] = some p
        ∧ p.recordingType = "shared_screen_with_speaker_view" :=
  (selectPrimary_spec [entryTimeline, entrySSV]).1 (by decide)

/-! ## Content-type derivation (C8) -/

/-- C8: the code is wrong and the claim describes the evident intent.
The `return` statement of `getContentType` dereferences the undefined name
`contentType` instead of the local table `contentTypes`, so *every* call
throws a `ReferenceError` — it never returns a content type at all.  At the
failing input `"recording.mp4"` the code throws, while the documented
lookup (modelled by `getContentTypeSpec`) would return `"video/mp4"`, and
an unknown extension would map to `"application/octet-stream"`. -/
theorem getContentType_always_throws :
    (∀ fileName : String,
      getContentType fileName = Except.error "contentType is not defined")
    ∧ getContentType "recording.mp4"
        = Except.error "contentType is not defined"
    ∧ getContentTypeSpec "recording.mp4" = "video/mp4"
    ∧ getContentTypeSpec "notes.XYZ" = "application/octet-stream" :=
  ⟨fun _ => rfl, rfl, by decide, by decide⟩

/-! ## Queue retry policy (C9) -/

/-- C9: the queue's default job options request 3 total attempts with
exponential backoff at base delay 2000 ms; an always-failing job is
attempted exactly 3 times, sleeping 2 s then 4 s between attempts (each
retry delay doubling the previous one, starting at 2 s), and is then
retained in the failed set (`removeOnFail: 50` keeps it). -/
theorem recordingQueue_retry_policy :
    recordingQueueOptions.attempts = 3
    ∧ recordingQueueOptions.backoffType = "exponential"
    ∧ failingRun recordingQueueOptions = (3, [2000, 4000])
    ∧ backoffDelayFor recordingQueueOptions 0 = 2000
    ∧ (∀ k : Nat, backoffDelayFor recordingQueueOptions (k + 1)
        = 2 * backoffDelayFor recordingQueueOptions k)
    ∧ retainedInFailedSet recordingQueueOptions = true := by
  refine ⟨rfl, rfl, by decide, rfl, fun k => ?_, rfl⟩
  simp [backoffDelayFor, pow_succ]
  ring

/-! ## Queue statistics (C10) -/

/-- C10: if any of the four queue-state reads fails, `getQueueStats`
returns `null` (`none`) rather than a partial object; when all four
succeed it returns the four lengths with `total` equal to their sum — so
any returned stats object satisfies
`total = waiting + active + completed + failed`. -/
theorem getQueueStats_spec (w a c f : Except String (List String)) :
    (((∃ e, w = .error e) ∨ (∃ e, a = .error e) ∨ (∃ e, c = .error e)
        ∨ (∃ e, f = .error e)) → getQueueStats w a c f = none)
    ∧ (∀ ws as_ cs fs, w = .ok ws → a = .ok as_ → c = .ok cs → f = .ok fs →
        getQueueStats w a c f = some
          { waiting := ws.length, active := as_.length
            completed := cs.length, failed := fs.length
            total := ws.length + as_.length + cs.length + fs.length })
    ∧ (∀ st, getQueueStats w a c f = some st →
        st.total = st.waiting + st.active + st.completed + st.failed) := by
  cases w <;> cases a <;> cases c <;> cases f <;>
    refine ⟨fun h => ?_, fun ws as_ cs fs hw ha hc hf => ?_,
      fun st hst => ?_⟩ <;>
    (simp_all [getQueueStats]; try (subst hst; rfl))

/-- Witness for C10: one failing read yields `none`; four succeeding reads
yield the summed total. -/
theorem getQueueStats_spec_witness :
    getQueueStats (.error "redis down") (.ok []) (.ok []) (.ok []) = none
    ∧ getQueueStats (.ok ["j1", "j2"]) (.ok ["j3"]) (.ok []) (.ok ["j4"])
        = some { waiting := 2, active := 1, completed := 0, failed := 1
                 total := 4 } :=
  ⟨(getQueueStats_spec (.error "redis down") (.ok []) (.ok []) (.ok [])).1
      (Or.inl ⟨"redis down", rfl⟩),
   (getQueueStats_spec (.ok ["j1", "j2"]) (.ok ["j3"]) (.ok [])
      (.ok ["j4"])).2.1 ["j1", "j2"] ["j3"] [] ["j4"] rfl rfl rfl rfl⟩

/-! ## Destination-key derivation (C7) -/

/-- The sanitization regex keeps exactly the characters of the class
`[A-Za-z0-9.-]`, phrased through the character order. -/
theorem keepChar_iff (c : Char) :
    keepChar c = true ↔
      (('A' ≤ c ∧ c ≤ 'Z') ∨ ('a' ≤ c ∧ c ≤ 'z') ∨ ('0' ≤ c ∧ c ≤ '9')
        ∨ c = '.' ∨ c = '-') := by
  simp [keepChar, Char.isAlphanum, Char.isAlpha, Char.isDigit, Char.isUpper,
    Char.isLower, Bool.or_eq_true, Bool.and_eq_true, decide_eq_true_eq,
    ge_iff_le, Char.le_def, or_assoc]

/-- C7: with the default folder-prefix configuration, the destination key is
`recordings/{today}/{sessionId}/{fileType}/{sanitizedFileName}`, where the
sanitized name replaces character-wise every character outside
`[A-Za-z0-9.-]` with `_`; the derivation is a total function (never throws)
and is deterministic for a fixed day — two calls on the same inputs and the
same `today` are definitionally the same key. -/
theorem generateS3Key_format (today sessionId fileName fileType : String) :
    generateS3Key (folderPfx none) today sessionId fileName fileType
      = "recordings/" ++ today ++ "/" ++ sessionId ++ "/" ++ fileType ++ "/"
        ++ sanitizeFileName fileName
    ∧ (sanitizeFileName fileName).data
        = fileName.data.map (fun c => if keepChar c then c else '_')
    ∧ (∀ c : Char, keepChar c = true ↔
        (('A' ≤ c ∧ c ≤ 'Z') ∨ ('a' ≤ c ∧ c ≤ 'z') ∨ ('0' ≤ c ∧ c ≤ '9')
          ∨ c = '.' ∨ c = '-'))
    ∧ generateS3Key (folderPfx none) today sessionId fileName fileType
      = generateS3Key (folderPfx none) today sessionId fileName fileType :=
  ⟨rfl, rfl, keepChar_iff, rfl⟩

/-! ## Worker: orchestrator-call failure (C2) -/

/-- C2: when the single awaited `batchStreamUpload` call itself throws, the
processor returns (rather than propagates) a structured result that reports
every file of the job as failed with the raised error's message
(`filesProcessed: 0`, `failedFiles = totalFiles = files.length`), touching
the database not at all; the result is not the outer-catch error result. -/
theorem processJob_batchThrow (wd : WebhookData) (sessionId : String)
    (accountId : Option String) (files : List RecordingFile) (e : String)
    (findOutcome : Except String (Option Meeting))
    (updOutcome : Except String Unit)
    (hparse : parseJob wd = .ok (sessionId, accountId, files))
    (hne : files ≠ []) :
    processJob wd (.error e) findOutcome updOutcome
      = (.uploadFailed sessionId accountId 0 files.length files.length
          (files.map (fun f => { fileId := f.id, error := e })) e, noDbTrace)
    ∧ (processJob wd (.error e) findOutcome updOutcome).1.isError = false := by
  have hlen : ¬ files.length = 0 := by
    simpa [List.length_eq_zero] using hne
  have h : processJob wd (.error e) findOutcome updOutcome
      = (.uploadFailed sessionId accountId 0 files.length files.length
          (files.map (fun f => { fileId := f.id, error := e })) e,
         noDbTrace) := by
    simp [processJob, hparse, hlen]
  exact ⟨h, by rw [h]; rfl⟩

/-- Witness for C2 at a one-file job whose batch call throws a total-outage
error. -/
theorem processJob_batchThrow_witness :
    processJob (sampleWebhook [fileA]) (.error "total outage") (.ok none)
        (.ok ())
      = (.uploadFailed "sess-1" (some "acct-1") 0 [fileA].length
          [fileA].length
          ([fileA].map (fun f => { fileId := f.id, error := "total outage" }))
          "total outage", noDbTrace)
    ∧ (processJob (sampleWebhook [fileA]) (.error "total outage") (.ok none)
        (.ok ())).1.isError = false :=
  processJob_batchThrow (sampleWebhook [fileA]) "sess-1" (some "acct-1")
    [fileA] "total outage" (.ok none) (.ok ()) rfl (by decide)

/-! ## Worker: database-update failure (C3, corrected) -/

/-- The batch result of uploading `[fileA]` with the sample oracle: one
successful upload, no failures. -/
def sampleBatch1 : BatchResult :=
  batchStreamUpload [fileA] "sess-1" sampleUpload

/-- The meeting row the sample lookup finds. -/
def meeting1 : Meeting := { id := "meet-1" }

/-- C3 counterexample: at a concrete job with one successful upload where
`meeting.update` throws, the result's `databaseUpdated` field is `true`,
not `false` as the claim states — the code computes the flag as
`successfulUploads.length > 0` with no regard for the update outcome. -/
theorem processJob_dbThrow_counterexample :
    (processJob (sampleWebhook [fileA]) (.ok sampleBatch1)
        (.ok (some meeting1)) (.error "DB write failed")).1.databaseUpdatedField
      = some true
    ∧ (processJob (sampleWebhook [fileA]) (.ok sampleBatch1)
        (.ok (some meeting1))
        (.error "DB write failed")).1.databaseUpdatedField
      ≠ some false := by
  decide

/-- C3 as amended: if at least one upload succeeded and the MeetingRecord
update throws, the job result reports `databaseUpdated: true` (the flag is
`successfulUploads.length > 0`, independent of the update outcome),
`filesProcessed` equals the number of successful uploads, and the job still
completes normally (not the error result). -/
theorem processJob_dbThrow_amended (wd : WebhookData) (sessionId : String)
    (accountId : Option String) (files : List RecordingFile)
    (ur : BatchResult) (findOutcome : Except String (Option Meeting))
    (e : String)
    (hparse : parseJob wd = .ok (sessionId, accountId, files))
    (hne : ¬ files.length = 0)
    (hs : 0 < ur.successfulUploads.length) :
    (processJob wd (.ok ur) findOutcome (.error e)).1.databaseUpdatedField
      = some true
    ∧ (processJob wd (.ok ur) findOutcome (.error e)).1.filesProcessedField
      = some ur.successfulUploads.length
    ∧ (processJob wd (.ok ur) findOutcome (.error e)).1.isError = false := by
  simp [processJob, hparse, hne, JobResult.databaseUpdatedField,
    JobResult.filesProcessedField, JobResult.isError, hs]

/-- Witness for the amended C3 at the concrete one-file job. -/
theorem processJob_dbThrow_amended_witness :
    (processJob (sampleWebhook [fileA]) (.ok sampleBatch1)
        (.ok (some meeting1)) (.error "DB write failed")).1.filesProcessedField
      = some sampleBatch1.successfulUploads.length :=
  (processJob_dbThrow_amended (sampleWebhook [fileA]) "sess-1" (some "acct-1")
    [fileA] sampleBatch1 (.ok (some meeting1)) "DB write failed"
    rfl (by decide) (by decide)).2.1

/-! ## Worker: update only after a success (C4) -/

/-- The database trace of a processor run is either empty or, when the
batch call returned normally, the trace of the reconciliation block. -/
theorem processJob_trace (wd : WebhookData)
    (batchOutcome : Except String BatchResult)
    (findOutcome : Except String (Option Meeting))
    (updOutcome : Except String Unit) :
    (processJob wd batchOutcome findOutcome updOutcome).2 = noDbTrace
    ∨ ∃ ur, batchOutcome = .ok ur
        ∧ (processJob wd batchOutcome findOutcome updOutcome).2
          = dbPhase ur findOutcome updOutcome := by
  unfold processJob
  split
  · exact Or.inl rfl
  · split
    · exact Or.inl rfl
    · split
      · exact Or.inl rfl
      · rename_i ur
        exact Or.inr ⟨ur, rfl, rfl⟩

/-- C4: the processor invokes `meeting.update` — the only way the recording
status becomes `"completed"` and `recordingUrl` is overwritten — only when
the batch call returned normally with a non-empty list of successful
uploads; and whenever it is invoked, the status written is `"completed"`. -/
theorem processJob_update_requires_success (wd : WebhookData)
    (batchOutcome : Except String BatchResult)
    (findOutcome : Except String (Option Meeting))
    (updOutcome : Except String Unit) (u : MeetingUpdate)
    (h : (processJob wd batchOutcome findOutcome updOutcome).2.updateCalled
      = some u) :
    ∃ ur, batchOutcome = .ok ur ∧ 0 < ur.successfulUploads.length
      ∧ u.sessionRecorded = "completed" := by
  rcases processJob_trace wd batchOutcome findOutcome updOutcome with
    htr | ⟨ur, hb, htr⟩
  · rw [htr] at h
    simp [noDbTrace] at h
  · rw [htr] at h
    refine ⟨ur, hb, ?_⟩
    unfold dbPhase at h
    split at h
    · rename_i hs
      split at h
      · simp at h
      · simp at h
      · split at h
        · simp only [Option.some.injEq] at h
          exact ⟨hs, by rw [← h]⟩
        · simp at h
    · simp [noDbTrace] at h

/-- Witness for C4 at a concrete run in which the update is invoked. -/
theorem processJob_update_requires_success_witness :
    ∃ ur, (Except.ok sampleBatch1 : Except String BatchResult) = .ok ur
      ∧ 0 < ur.successfulUploads.length
      ∧ ({ sessionRecorded := "completed"
           recordingUrl := "https://bucket.s3/a" } : MeetingUpdate).sessionRecorded
        = "completed" :=
  processJob_update_requires_success (sampleWebhook [fileA])
    (.ok sampleBatch1) (.ok (some meeting1)) (.ok ())
    { sessionRecorded := "completed", recordingUrl := "https://bucket.s3/a" }
    (by decide)

/-! ## Worker: zero-file job (C6) -/

/-- C6: a job whose payload passes validation (valid event type, session id
and download token) but carries an empty recording-file list returns the
success result with `filesProcessed: 0` — not the error result — and the
database is neither looked up nor updated. -/
theorem processJob_zeroFiles (wd : WebhookData) (sessionId : String)
    (accountId : Option String) (batchOutcome : Except String BatchResult)
    (findOutcome : Except String (Option Meeting))
    (updOutcome : Except String Unit)
    (hparse : parseJob wd = .ok (sessionId, accountId, [])) :
    processJob wd batchOutcome findOutcome updOutcome
      = (.noFiles sessionId accountId, noDbTrace)
    ∧ (processJob wd batchOutcome findOutcome updOutcome).1.filesProcessedField
      = some 0
    ∧ (processJob wd batchOutcome findOutcome updOutcome).1.isError = false
    ∧ (processJob wd batchOutcome findOutcome updOutcome).2.findAttempted
      = false
    ∧ (processJob wd batchOutcome findOutcome updOutcome).2.updateCalled
      = none := by
  have h : processJob wd batchOutcome findOutcome updOutcome
      = (.noFiles sessionId accountId, noDbTrace) := by
    simp [processJob, hparse]
  exact ⟨h, by rw [h]; rfl, by rw [h]; rfl, by rw [h]; rfl, by rw [h]; rfl⟩

/-- Witness for C6 at a concrete zero-file webhook. -/
theorem processJob_zeroFiles_witness :
    processJob (sampleWebhook []) (.error "never called") (.ok none) (.ok ())
      = (.noFiles "sess-1" (some "acct-1"), noDbTrace) :=
  (processJob_zeroFiles (sampleWebhook []) "sess-1" (some "acct-1")
    (.error "never called") (.ok none) (.ok ()) rfl).1

end ZoomSdkBe
